import Mathlib

/-!
Shallow embedding of the Firestore CRUD retry helpers of
`cloudfunctions-go-utils` (file `firebasefunctions.go`).

Modelling conventions:
* A backend error is a `GoErr`: either an ordinary error carrying its
  message (`GoErr.msg`), or the distinguished `iterator.Done` sentinel
  (`GoErr.iterDone`), whose identity the Go code tests with `==` on the
  error value, not on its message.
* A backend stub is a function `Nat → Option GoErr` giving the outcome of
  the k-th backend invocation (`none` = success); likewise for the
  connection-refresh routine `getFirestoreAppAndClientWithContext`.
* The environment variable `FIRESTORE_RETRIES_NUMBER` is modelled as the
  string `os.Getenv` returns (the empty string when unset), parsed by
  `goAtoi`, which models `strconv.Atoi` on in-range inputs (overflow is
  not modelled; no claim depends on it).
* A call's observable outcome is an `OpTrace`: the returned value or
  error, the number of backend invocations, the number of refresh
  invocations, and whether the informational missing-config log line was
  emitted.  A nil-pointer dereference (`err.Error()` on a nil `err`) is
  the outcome `OpResult.panicked`.
-/

inductive GoErr where
  | msg (s : String)
  | iterDone
deriving DecidableEq, Repr

/-- The string `err.Error()` yields in Go; `iterator.Done` has the fixed
message "no more items in iterator". -/
def GoErr.error : GoErr → String
  | .msg s => s
  | .iterDone => "no more items in iterator"

inductive OpResult where
  | ok
  | err (e : GoErr)
  | panicked
deriving DecidableEq, Repr

structure OpTrace where
  result : OpResult
  backendCalls : Nat
  refreshCalls : Nat
  configLogged : Bool
deriving DecidableEq, Repr

/-- `charsPrefix a b` holds when the char list `a` is a prefix of `b`. -/
def charsPrefix : List Char → List Char → Bool
  | [], _ => true
  | _ :: _, [] => false
  | a :: as, b :: bs => a == b && charsPrefix as bs

/-- `charsContain sub s` holds when `sub` occurs contiguously inside `s`. -/
def charsContain (sub : List Char) : List Char → Bool
  | [] => charsPrefix sub []
  | c :: rest => charsPrefix sub (c :: rest) || charsContain sub rest

/-- Go `strings.Contains s sub`. -/
def goStringsContains (s sub : String) : Bool :=
  charsContain sub.data s.data

def goAtoiDigits (ds : List Char) (sign : Int) : Option Int :=
  if ds = [] then none
  else if ds.all Char.isDigit then
    some (sign * Int.ofNat (ds.foldl (fun a c => a * 10 + (c.toNat - 48)) 0))
  else none

/-- Go `strconv.Atoi` (in-range inputs): optional sign then decimal
digits; `none` on the empty string or any non-digit. -/
def goAtoi (s : String) : Option Int :=
  match s.data with
  | '-' :: rest => goAtoiDigits rest (-1)
  | '+' :: rest => goAtoiDigits rest 1
  | cs => goAtoiDigits cs 1

/-- The message of the error `strconv.Atoi` returns on a syntax error. -/
def atoiErrMsg (s : String) : String :=
  "strconv.Atoi: parsing \"" ++ s ++ "\": invalid syntax"

def ClosingTransportError : String := "Unavailable desc = transport is closing"

def UnavailableServiceError : String := "Unavailable desc = The service is temporarily unavailable"

def UsersCollection : String := "users"

def PromoItemsCollection : String := "promo_items"

def FirestoreCollectionNames : List String := [UsersCollection, PromoItemsCollection]

/-- `firestoreCollectionExists` from the source: membership in the static
allowlist. -/
def firestoreCollectionExists (docName : String) : Bool :=
  FirestoreCollectionNames.any (fun name => name == docName)

/-- The per-operation strings and retry predicate of one CRUD retry loop;
each field is read off the corresponding `fmt.Errorf`/`if` of the source. -/
structure CrudSpec where
  retryable : String → Bool
  fatalMsg : String → String
  refreshFailMsg : Int → String → String
  exceedMsg : String → String

/--
The shared shape of the four CRUD retry loops
(`for i := 0; i < firestoreRetriesNumber; i++ { ... }`).
Arguments after `n` (the Go `firestoreRetriesNumber`): remaining
iterations (`n.toNat` at entry), the Go loop index `i`, backend and
refresh invocation counts so far, and the current value of the Go `err`
variable.  On a retryable failure the code reassigns `err` from the
refresh call, so a successful refresh leaves `err = nil` (`none`); when
the loop exits, building the exceed-retries message calls `err.Error()`,
which on `nil` is a nil-pointer dereference (`panicked`).
-/
def crudLoop (sp : CrudSpec) (backend refresh : Nat → Option GoErr) (n : Int) :
    Nat → Nat → Nat → Nat → Option GoErr → OpResult × Nat × Nat
  | 0, _, b, r, errVar =>
    match errVar with
    | some e => (OpResult.err (GoErr.msg (sp.exceedMsg e.error)), b, r)
    | none => (OpResult.panicked, b, r)
  | fuel+1, i, b, r, _ =>
    match backend b with
    | none => (OpResult.ok, b+1, r)
    | some e =>
      if sp.retryable e.error then
        match refresh r with
        | some re =>
          (OpResult.err (GoErr.msg (sp.refreshFailMsg (n - (i : Int)) re.error)), b+1, r+1)
        | none => crudLoop sp backend refresh n fuel (i+1) (b+1) (r+1) none
      else
        (OpResult.err (GoErr.msg (sp.fatalMsg e.error)), b+1, r)

def addSpec (collectionName : String) : CrudSpec where
  retryable := fun m => m == ClosingTransportError
  fatalMsg := fun m =>
    "Unsuccessful adding data to the '" ++ collectionName ++ "' collection, Error: " ++ m
  refreshFailMsg := fun left m =>
    "Error updating fireclient (" ++ toString left ++ " - retries left): " ++ m
  exceedMsg := fun m =>
    "Exceed retries number for adding data to the '" ++ collectionName ++ "' collection, Error: " ++ m

def getSpec (collectionName : String) : CrudSpec where
  retryable := fun m =>
    m == ClosingTransportError || goStringsContains m "The service is temporarily unavailable"
  fatalMsg := fun m =>
    "unsuccessful getting data from the '" ++ collectionName ++ "' collection, Error: " ++ m
  refreshFailMsg := fun left m =>
    "error updating fireclient (" ++ toString left ++ " - retries left): " ++ m
  exceedMsg := fun m =>
    "Exceed retries number for getting data from the '" ++ collectionName ++ "' collection, Error: " ++ m

def editSpec (collectionName entityID : String) : CrudSpec where
  retryable := fun m =>
    m == ClosingTransportError || goStringsContains m UnavailableServiceError
  fatalMsg := fun m =>
    "Unsuccessful updating '" ++ entityID ++ "' in the '" ++ collectionName ++ "' collection, Error: " ++ m
  refreshFailMsg := fun left m =>
    "Error updating fireclient (" ++ toString left ++ " - retries left): " ++ m
  exceedMsg := fun m =>
    "Exceed retries number for updating '" ++ entityID ++ "' in the '" ++ collectionName ++ "' collection, Error: " ++ m

def deleteSpec (collectionName entityID : String) : CrudSpec where
  retryable := fun m => m == ClosingTransportError
  fatalMsg := fun m =>
    "Unsuccessful deletion " ++ entityID ++ " from " ++ collectionName ++ " collection, Error: " ++ m
  refreshFailMsg := fun left m =>
    "Error updating fireclient (" ++ toString left ++ " - retries left): " ++ m
  exceedMsg := fun m =>
    "Exceed retries number for deletion " ++ entityID ++ " from " ++ collectionName ++ " collection, Error: " ++ m

/-- The Go `err` variable right after `firestoreRetriesNumber, err :=
strconv.Atoi(os.Getenv(...))`: the parse error when parsing failed,
`nil` otherwise. -/
def initialErrVar (env : String) : Option GoErr :=
  if (goAtoi env).isNone then some (GoErr.msg (atoiErrMsg env)) else none

/-- `addEntityToFirestore`: parse retry count, allowlist guard, retry
loop.  The entity is never inspected (the source has no nil check). -/
def addEntityToFirestore (env collectionName : String) (entity : Option Unit)
    (backend refresh : Nat → Option GoErr) : OpTrace :=
  let parsed := goAtoi env
  let n : Int := parsed.getD 1
  let logged := parsed.isNone
  if firestoreCollectionExists collectionName then
    match crudLoop (addSpec collectionName) backend refresh n n.toNat 0 0 0 (initialErrVar env) with
    | (res, b, r) => ⟨res, b, r, logged⟩
  else
    ⟨OpResult.err (GoErr.msg ("Collection name '" ++ collectionName ++ "' does not exist")), 0, 0, logged⟩

/-- `getEntityFromFirestore`: parse retry count, empty-ID guard,
allowlist guard, retry loop. -/
def getEntityFromFirestore (env collectionName entityID : String)
    (backend refresh : Nat → Option GoErr) : OpTrace :=
  let parsed := goAtoi env
  let n : Int := parsed.getD 1
  let logged := parsed.isNone
  if entityID == "" then
    ⟨OpResult.err (GoErr.msg "entity ID is required field for get"), 0, 0, logged⟩
  else if firestoreCollectionExists collectionName then
    match crudLoop (getSpec collectionName) backend refresh n n.toNat 0 0 0 (initialErrVar env) with
    | (res, b, r) => ⟨res, b, r, logged⟩
  else
    ⟨OpResult.err (GoErr.msg ("document name '" ++ collectionName ++ "' does not exist")), 0, 0, logged⟩

/-- `editEntityInFirestore`: parse retry count, empty-ID guard,
allowlist guard, retry loop.  The entity is only forwarded. -/
def editEntityInFirestore (env collectionName entityID : String) (entity : Option Unit)
    (backend refresh : Nat → Option GoErr) : OpTrace :=
  let parsed := goAtoi env
  let n : Int := parsed.getD 1
  let logged := parsed.isNone
  if entityID == "" then
    ⟨OpResult.err (GoErr.msg "Entity ID is required field for edit"), 0, 0, logged⟩
  else if firestoreCollectionExists collectionName then
    match crudLoop (editSpec collectionName entityID) backend refresh n n.toNat 0 0 0 (initialErrVar env) with
    | (res, b, r) => ⟨res, b, r, logged⟩
  else
    ⟨OpResult.err (GoErr.msg ("Document name '" ++ collectionName ++ "' does not exist")), 0, 0, logged⟩

/-- `deleteEntityFromFirestore`: parse retry count, empty-ID guard,
allowlist guard, retry loop. -/
def deleteEntityFromFirestore (env collectionName entityID : String)
    (backend refresh : Nat → Option GoErr) : OpTrace :=
  let parsed := goAtoi env
  let n : Int := parsed.getD 1
  let logged := parsed.isNone
  if entityID == "" then
    ⟨OpResult.err (GoErr.msg "Entity ID is required field for deletion"), 0, 0, logged⟩
  else if firestoreCollectionExists collectionName then
    match crudLoop (deleteSpec collectionName entityID) backend refresh n n.toNat 0 0 0 (initialErrVar env) with
    | (res, b, r) => ⟨res, b, r, logged⟩
  else
    ⟨OpResult.err (GoErr.msg "Document name does not exist"), 0, 0, logged⟩

/--
The loop of `firebaseDocumentIteratorWithRetry`.  Inside the loop the
source declares `doc, err := iter.Next()` with `:=`, shadowing the outer
`err`, so the outer `err` keeps the `strconv.Atoi` result for the whole
loop; `errVar0` is that constant value.  On a transport-closing message
the loop just continues — there is no refresh call.  `iterator.Done` is
compared by identity and returned as-is.
-/
def iterLoop (next : Nat → Option GoErr) (errVar0 : Option GoErr) :
    Nat → Nat → OpResult × Nat
  | 0, b =>
    match errVar0 with
    | some e => (OpResult.err (GoErr.msg ("Unsuccessful document iteration, Error: " ++ e.error)), b)
    | none => (OpResult.panicked, b)
  | fuel+1, b =>
    match next b with
    | none => (OpResult.ok, b+1)
    | some e =>
      if e.error == ClosingTransportError then
        iterLoop next errVar0 fuel (b+1)
      else if e == GoErr.iterDone then
        (OpResult.err GoErr.iterDone, b+1)
      else
        (OpResult.err (GoErr.msg ("Unsuccessful document iteration, Error: " ++ e.error)), b+1)

/-- `firebaseDocumentIteratorWithRetry`: parse retry count, then the
iteration loop; it never refreshes the connection. -/
def firebaseDocumentIteratorWithRetry (env : String) (next : Nat → Option GoErr) : OpTrace :=
  let parsed := goAtoi env
  let n : Int := parsed.getD 1
  let logged := parsed.isNone
  match iterLoop next (initialErrVar env) n.toNat 0 with
  | (res, b) => ⟨res, b, 0, logged⟩

/-- A backend stub that fails once with message `m`, then succeeds. -/
def oneErrStub (m : String) : Nat → Option GoErr :=
  fun k => if k == 0 then some (GoErr.msg m) else none

/-- A backend stub that always fails with the transport-closing message. -/
def allTransientStub : Nat → Option GoErr :=
  fun _ => some (GoErr.msg ClosingTransportError)

/-- A refresh stub that always succeeds. -/
def refreshOk : Nat → Option GoErr :=
  fun _ => none

/-- A backend stub that always succeeds. -/
def backendOk : Nat → Option GoErr :=
  fun _ => none

theorem charsPrefix_iff (a : List Char) : ∀ b, charsPrefix a b = true ↔ ∃ t, b = a ++ t := by
  induction a with
  | nil => intro b; simp [charsPrefix]
  | cons x xs ih =>
    intro b
    cases b with
    | nil => simp [charsPrefix]
    | cons y ys =>
      simp only [charsPrefix, Bool.and_eq_true, beq_iff_eq, ih ys, List.cons_append,
        List.cons.injEq]
      constructor
      · rintro ⟨hxy, t, ht⟩
        exact ⟨t, hxy.symm, ht⟩
      · rintro ⟨t, hyx, ht⟩
        exact ⟨hyx.symm, t, ht⟩

theorem charsContain_iff (sub : List Char) :
    ∀ s, charsContain sub s = true ↔ ∃ l r, s = l ++ (sub ++ r) := by
  intro s
  induction s with
  | nil =>
    simp only [charsContain, charsPrefix_iff]
    constructor
    · rintro ⟨t, ht⟩
      exact ⟨[], t, by simpa using ht⟩
    · rintro ⟨l, r, h⟩
      have hl : l = [] ∧ sub ++ r = [] := by
        constructor
        · cases l with
          | nil => rfl
          | cons d l' => simp at h
        · cases l with
          | nil => simpa using h.symm
          | cons d l' => simp at h
      exact ⟨r, hl.2.symm⟩
  | cons c rest ih =>
    simp only [charsContain, Bool.or_eq_true, charsPrefix_iff, ih]
    constructor
    · rintro (⟨t, ht⟩ | ⟨l, r, h⟩)
      · exact ⟨[], t, by simpa using ht⟩
      · exact ⟨c :: l, r, by simp [h]⟩
    · rintro ⟨l, r, h⟩
      cases l with
      | nil => exact Or.inl ⟨r, by simpa using h⟩
      | cons d l' =>
        simp only [List.cons_append, List.cons.injEq] at h
        exact Or.inr ⟨l', r, h.2⟩

theorem goStringsContains_trans (m b a : String)
    (h1 : goStringsContains b a = true) (h2 : goStringsContains m b = true) :
    goStringsContains m a = true := by
  unfold goStringsContains at h1 h2 ⊢
  rw [charsContain_iff] at h1 h2 ⊢
  obtain ⟨l1, r1, hb⟩ := h1
  obtain ⟨l2, r2, hm⟩ := h2
  exact ⟨l2 ++ l1, r1 ++ r2, by simp [hm, hb, List.append_assoc]⟩

theorem crudLoop_ok_first (sp : CrudSpec) (backend refresh : Nat → Option GoErr) (n : Int)
    (f i b r : Nat) (ev : Option GoErr) (hb : backend b = none) :
    crudLoop sp backend refresh n (f+1) i b r ev = (OpResult.ok, b+1, r) := by
  simp [crudLoop, hb]

theorem crudLoop_fatal_first (sp : CrudSpec) (backend refresh : Nat → Option GoErr) (n : Int)
    (f i b r : Nat) (ev : Option GoErr) (e : GoErr) (hb : backend b = some e)
    (hr : sp.retryable e.error = false) :
    crudLoop sp backend refresh n (f+1) i b r ev =
      (OpResult.err (GoErr.msg (sp.fatalMsg e.error)), b+1, r) := by
  simp [crudLoop, hb, hr]

theorem crudLoop_retry_then_ok (sp : CrudSpec) (backend refresh : Nat → Option GoErr) (n : Int)
    (htr : sp.retryable ClosingTransportError = true)
    (hrf : ∀ j, refresh j = none) :
    ∀ t fuel i b r ev, t < fuel →
      (∀ j, j < t → backend (b+j) = some (GoErr.msg ClosingTransportError)) →
      backend (b+t) = none →
      crudLoop sp backend refresh n fuel i b r ev = (OpResult.ok, b+t+1, r+t) := by
  intro t
  induction t with
  | zero =>
    intro fuel i b r ev hft _ hs
    obtain ⟨f, rfl⟩ : ∃ f, fuel = f + 1 := ⟨fuel - 1, by omega⟩
    simp only [Nat.add_zero] at hs
    simp [crudLoop, hs]
  | succ t ih =>
    intro fuel i b r ev hft hb hs
    obtain ⟨f, rfl⟩ : ∃ f, fuel = f + 1 := ⟨fuel - 1, by omega⟩
    have hb0 : backend b = some (GoErr.msg ClosingTransportError) := by
      simpa using hb 0 (by omega)
    have hrec := ih f (i+1) (b+1) (r+1) none (by omega)
      (fun j hj => by simpa [Nat.add_assoc, Nat.add_comm 1 j] using hb (j+1) (by omega))
      (by simpa [Nat.add_assoc, Nat.add_comm 1 t] using hs)
    simp only [crudLoop, hb0, GoErr.error, htr, hrf r, if_true]
    rw [hrec, show b + 1 + t + 1 = b + (t + 1) + 1 by omega,
      show r + 1 + t = r + (t + 1) by omega]

theorem iterLoop_ok_first (next : Nat → Option GoErr) (ev : Option GoErr) (f b : Nat)
    (hb : next b = none) :
    iterLoop next ev (f+1) b = (OpResult.ok, b+1) := by
  simp [iterLoop, hb]

theorem iterLoop_fatal_first (next : Nat → Option GoErr) (ev : Option GoErr) (f b : Nat)
    (m : String) (hb : next b = some (GoErr.msg m))
    (hm : (m == ClosingTransportError) = false) :
    iterLoop next ev (f+1) b =
      (OpResult.err (GoErr.msg ("Unsuccessful document iteration, Error: " ++ m)), b+1) := by
  simp [iterLoop, hb, GoErr.error, hm]

theorem iterLoop_retry_then_ok (next : Nat → Option GoErr) (ev : Option GoErr) :
    ∀ t fuel b, t < fuel →
      (∀ j, j < t → next (b+j) = some (GoErr.msg ClosingTransportError)) →
      next (b+t) = none →
      iterLoop next ev fuel b = (OpResult.ok, b+t+1) := by
  intro t
  induction t with
  | zero =>
    intro fuel b hft _ hs
    obtain ⟨f, rfl⟩ : ∃ f, fuel = f + 1 := ⟨fuel - 1, by omega⟩
    simp only [Nat.add_zero] at hs
    simp [iterLoop, hs]
  | succ t ih =>
    intro fuel b hft hb hs
    obtain ⟨f, rfl⟩ : ∃ f, fuel = f + 1 := ⟨fuel - 1, by omega⟩
    have hb0 : next b = some (GoErr.msg ClosingTransportError) := by
      simpa using hb 0 (by omega)
    have hrec := ih f (b+1) (by omega)
      (fun j hj => by simpa [Nat.add_assoc, Nat.add_comm 1 j] using hb (j+1) (by omega))
      (by simpa [Nat.add_assoc, Nat.add_comm 1 t] using hs)
    simp only [iterLoop, hb0, GoErr.error, beq_self_eq_true, if_true]
    rw [hrec, show b + 1 + t + 1 = b + (t + 1) + 1 by omega]

/--
C1: the spec claims that with retry budget N and only transient failures,
every operation (add, get, edit, delete, cursor-advance) performs exactly
N backend invocations and returns a RetryExhausted error reporting the
last backend error.  The code's intent (the "Exceed retries number" /
"Unsuccessful document iteration" messages built from `err.Error()`)
matches the claim, but the `err` variable is overwritten by the
successful refresh call (CRUD ops) or shadowed inside the loop (cursor
advance), so at the exhaustion point `err` is nil and `err.Error()`
panics; with the retry variable unset, the cursor advance instead reports
the `strconv.Atoi` parse error, not the last backend error.
-/
theorem C1_retry_exhaustion_panics :
    addEntityToFirestore "2" "users" none allTransientStub refreshOk =
      ⟨OpResult.panicked, 2, 2, false⟩
    ∧ getEntityFromFirestore "2" "users" "x" allTransientStub refreshOk =
      ⟨OpResult.panicked, 2, 2, false⟩
    ∧ editEntityInFirestore "2" "users" "x" none allTransientStub refreshOk =
      ⟨OpResult.panicked, 2, 2, false⟩
    ∧ deleteEntityFromFirestore "2" "users" "x" allTransientStub refreshOk =
      ⟨OpResult.panicked, 2, 2, false⟩
    ∧ firebaseDocumentIteratorWithRetry "2" allTransientStub =
      ⟨OpResult.panicked, 2, 0, false⟩
    ∧ firebaseDocumentIteratorWithRetry "" allTransientStub =
      ⟨OpResult.err (GoErr.msg ("Unsuccessful document iteration, Error: " ++ atoiErrMsg "")),
        1, 0, true⟩ :=
  ⟨rfl, rfl, rfl, rfl, rfl, rfl⟩

/--
C2: the spec claims steady-state executions never panic for any
retry-budget environment value and any backend result sequence.  The
code panics in two steady-state situations: retry exhaustion after only
transient failures with successful refreshes (the clobbered-`err` nil
dereference), and a retry-count environment value that parses to a
non-positive integer (loop skipped, `err` still nil at the exceed-retries
message).  Both are exercised here.
-/
theorem C2_steady_state_panics :
    deleteEntityFromFirestore "1" "users" "y" allTransientStub refreshOk =
      ⟨OpResult.panicked, 1, 1, false⟩
    ∧ getEntityFromFirestore "-3" "users" "y" backendOk refreshOk =
      ⟨OpResult.panicked, 0, 0, false⟩ :=
  ⟨rfl, rfl⟩

theorem crudLoop_oneErr (sp : CrudSpec) (m : String) (n : Int) (ev : Option GoErr) :
    crudLoop sp (oneErrStub m) refreshOk n 2 0 0 0 ev =
      if sp.retryable m then (OpResult.ok, 2, 1)
      else (OpResult.err (GoErr.msg (sp.fatalMsg m)), 1, 0) := by
  by_cases h : sp.retryable m
  · simp [crudLoop, oneErrStub, refreshOk, GoErr.error, h]
  · simp [crudLoop, oneErrStub, GoErr.error, h]

/--
C3_counterexample: the message "The service is temporarily unavailable"
satisfies the claim's Retryable condition (it contains the
unavailable-service substring), yet `addEntityToFirestore` classifies it
as fatal: one backend invocation, no refresh, immediate wrapped error.
So the claimed classification rule is not applied uniformly by all five
operations.
-/
theorem C3_counterexample :
    goStringsContains "The service is temporarily unavailable"
      "The service is temporarily unavailable" = true
    ∧ addEntityToFirestore "2" "users" none
        (oneErrStub "The service is temporarily unavailable") refreshOk =
      ⟨OpResult.err (GoErr.msg ("Unsuccessful adding data to the 'users' collection, " ++
        "Error: The service is temporarily unavailable")), 1, 0, false⟩ :=
  ⟨rfl, rfl⟩

/--
C3: amended per-operation classification.  With retry budget 2 and a
backend failing once with message `m` then succeeding, the operation
retries (one refresh for the CRUD operations; a second backend call for
the cursor advance, which never refreshes) exactly when its own
condition holds: add and delete and the cursor advance require the
message to equal the transport-closing string; get also retries when the
message contains "The service is temporarily unavailable"; edit also
retries when the message contains the full unavailable-service string.
The rule is therefore not uniform across the five operations.
-/
theorem C3_per_op_classification (m : String) :
    (addEntityToFirestore "2" "users" none (oneErrStub m) refreshOk).refreshCalls
      = (if m == ClosingTransportError then 1 else 0)
    ∧ (getEntityFromFirestore "2" "users" "x" (oneErrStub m) refreshOk).refreshCalls
      = (if (m == ClosingTransportError
            || goStringsContains m "The service is temporarily unavailable") then 1 else 0)
    ∧ (editEntityInFirestore "2" "users" "x" none (oneErrStub m) refreshOk).refreshCalls
      = (if (m == ClosingTransportError
            || goStringsContains m UnavailableServiceError) then 1 else 0)
    ∧ (deleteEntityFromFirestore "2" "users" "x" (oneErrStub m) refreshOk).refreshCalls
      = (if m == ClosingTransportError then 1 else 0)
    ∧ (firebaseDocumentIteratorWithRetry "2" (oneErrStub m)).backendCalls
      = (if m == ClosingTransportError then 2 else 1) := by
  refine ⟨?_, ?_, ?_, ?_, ?_⟩
  · cases hc : (m == ClosingTransportError) with
    | true =>
      simp [addEntityToFirestore, addSpec, crudLoop, oneErrStub, refreshOk, GoErr.error, hc,
        show goAtoi "2" = some 2 from rfl, show Int.toNat 2 = 2 from rfl,
        show initialErrVar "2" = none from rfl,
        show firestoreCollectionExists "users" = true from rfl]
    | false =>
      simp [addEntityToFirestore, addSpec, crudLoop, oneErrStub, GoErr.error, hc,
        show goAtoi "2" = some 2 from rfl, show Int.toNat 2 = 2 from rfl,
        show initialErrVar "2" = none from rfl,
        show firestoreCollectionExists "users" = true from rfl]
  · cases hc : (m == ClosingTransportError
        || goStringsContains m "The service is temporarily unavailable") with
    | true =>
      simp [getEntityFromFirestore, getSpec, crudLoop, oneErrStub, refreshOk, GoErr.error, hc,
        show goAtoi "2" = some 2 from rfl, show Int.toNat 2 = 2 from rfl,
        show initialErrVar "2" = none from rfl,
        show (("x" : String) == "") = false from rfl,
        show firestoreCollectionExists "users" = true from rfl]
    | false =>
      simp [getEntityFromFirestore, getSpec, crudLoop, oneErrStub, GoErr.error, hc,
        show goAtoi "2" = some 2 from rfl, show Int.toNat 2 = 2 from rfl,
        show initialErrVar "2" = none from rfl,
        show (("x" : String) == "") = false from rfl,
        show firestoreCollectionExists "users" = true from rfl]
  · cases hc : (m == ClosingTransportError
        || goStringsContains m UnavailableServiceError) with
    | true =>
      simp [editEntityInFirestore, editSpec, crudLoop, oneErrStub, refreshOk, GoErr.error, hc,
        show goAtoi "2" = some 2 from rfl, show Int.toNat 2 = 2 from rfl,
        show initialErrVar "2" = none from rfl,
        show (("x" : String) == "") = false from rfl,
        show firestoreCollectionExists "users" = true from rfl]
    | false =>
      simp [editEntityInFirestore, editSpec, crudLoop, oneErrStub, GoErr.error, hc,
        show goAtoi "2" = some 2 from rfl, show Int.toNat 2 = 2 from rfl,
        show initialErrVar "2" = none from rfl,
        show (("x" : String) == "") = false from rfl,
        show firestoreCollectionExists "users" = true from rfl]
  · cases hc : (m == ClosingTransportError) with
    | true =>
      simp [deleteEntityFromFirestore, deleteSpec, crudLoop, oneErrStub, refreshOk, GoErr.error, hc,
        show goAtoi "2" = some 2 from rfl, show Int.toNat 2 = 2 from rfl,
        show initialErrVar "2" = none from rfl,
        show (("x" : String) == "") = false from rfl,
        show firestoreCollectionExists "users" = true from rfl]
    | false =>
      simp [deleteEntityFromFirestore, deleteSpec, crudLoop, oneErrStub, GoErr.error, hc,
        show goAtoi "2" = some 2 from rfl, show Int.toNat 2 = 2 from rfl,
        show initialErrVar "2" = none from rfl,
        show (("x" : String) == "") = false from rfl,
        show firestoreCollectionExists "users" = true from rfl]
  · by_cases hm : (m == ClosingTransportError) = true
    · simp [firebaseDocumentIteratorWithRetry, iterLoop, oneErrStub, GoErr.error, hm]
    · have hm' : (m == ClosingTransportError) = false := by
        simpa using hm
      simp [firebaseDocumentIteratorWithRetry, iterLoop, oneErrStub, GoErr.error, hm']

/--
C4_counterexample: with retry budget 2 and a backend failing once with
the transient message then succeeding, the cursor-advance operation
succeeds after 2 backend invocations but performs 0 connection
refreshes, not the claimed N-1 = 1: its retry path only continues the
loop and never calls the refresh routine.
-/
theorem C4_counterexample :
    (firebaseDocumentIteratorWithRetry "2" (oneErrStub ClosingTransportError)).result
      = OpResult.ok
    ∧ (firebaseDocumentIteratorWithRetry "2" (oneErrStub ClosingTransportError)).backendCalls = 2
    ∧ (firebaseDocumentIteratorWithRetry "2" (oneErrStub ClosingTransportError)).refreshCalls
        ≠ 2 - 1 :=
  ⟨rfl, rfl, by decide⟩

/--
C4: amended.  For retry budget N >= 1 (parsed from the environment),
valid arguments, a backend failing with the transport-closing message
exactly N-1 times then succeeding, and an always-succeeding refresh
routine: each of add, get, edit, delete succeeds with exactly N backend
invocations and exactly N-1 refresh invocations; the cursor-advance
operation also succeeds with exactly N backend invocations but performs
0 refresh invocations, because its retry path never refreshes the
connection.
-/
theorem C4_transient_then_success (env coll id : String) (entity : Option Unit)
    (backend refresh : Nat → Option GoErr) (N : Nat)
    (hN : 1 ≤ N) (henv : goAtoi env = some (N : Int))
    (hcoll : firestoreCollectionExists coll = true) (hid : (id == "") = false)
    (hb : ∀ j, j < N - 1 → backend j = some (GoErr.msg ClosingTransportError))
    (hs : backend (N - 1) = none)
    (hrf : ∀ j, refresh j = none) :
    addEntityToFirestore env coll entity backend refresh = ⟨OpResult.ok, N, N - 1, false⟩
    ∧ getEntityFromFirestore env coll id backend refresh = ⟨OpResult.ok, N, N - 1, false⟩
    ∧ editEntityInFirestore env coll id entity backend refresh = ⟨OpResult.ok, N, N - 1, false⟩
    ∧ deleteEntityFromFirestore env coll id backend refresh = ⟨OpResult.ok, N, N - 1, false⟩
    ∧ firebaseDocumentIteratorWithRetry env backend = ⟨OpResult.ok, N, 0, false⟩ := by
  have hev : initialErrVar env = none := by simp [initialErrVar, henv]
  have htn : ((N : Int)).toNat = N := Int.toNat_natCast N
  have hlt : N - 1 < N := by omega
  have hb0 : ∀ j, j < N - 1 → backend (0 + j) = some (GoErr.msg ClosingTransportError) := by
    simpa using hb
  have hs0 : backend (0 + (N - 1)) = none := by simpa using hs
  have hN1 : N - 1 + 1 = N := by omega
  refine ⟨?_, ?_, ?_, ?_, ?_⟩
  · have h := crudLoop_retry_then_ok (addSpec coll) backend refresh (N : Int)
      (by simp [addSpec]) hrf (N - 1) N 0 0 0 (initialErrVar env) hlt hb0 hs0
    simp only [Nat.zero_add, hN1] at h
    rw [hev] at h
    simp [addEntityToFirestore, henv, hcoll, htn, hev, h]
  · have h := crudLoop_retry_then_ok (getSpec coll) backend refresh (N : Int)
      (by simp [getSpec]) hrf (N - 1) N 0 0 0 (initialErrVar env) hlt hb0 hs0
    simp only [Nat.zero_add, hN1] at h
    rw [hev] at h
    simp [getEntityFromFirestore, henv, hcoll, hid, htn, hev, h]
  · have h := crudLoop_retry_then_ok (editSpec coll id) backend refresh (N : Int)
      (by simp [editSpec]) hrf (N - 1) N 0 0 0 (initialErrVar env) hlt hb0 hs0
    simp only [Nat.zero_add, hN1] at h
    rw [hev] at h
    simp [editEntityInFirestore, henv, hcoll, hid, htn, hev, h]
  · have h := crudLoop_retry_then_ok (deleteSpec coll id) backend refresh (N : Int)
      (by simp [deleteSpec]) hrf (N - 1) N 0 0 0 (initialErrVar env) hlt hb0 hs0
    simp only [Nat.zero_add, hN1] at h
    rw [hev] at h
    simp [deleteEntityFromFirestore, henv, hcoll, hid, htn, hev, h]
  · have h := iterLoop_retry_then_ok backend (initialErrVar env) (N - 1) N 0 hlt hb0 hs0
    simp only [Nat.zero_add, hN1] at h
    rw [hev] at h
    simp [firebaseDocumentIteratorWithRetry, henv, htn, hev, h]

/-- C4_witness: the amended statement instantiated at N = 2, a backend
failing transiently once then succeeding, and an always-succeeding
refresh routine. -/
theorem C4_witness :
    addEntityToFirestore "2" "users" none (oneErrStub ClosingTransportError) refreshOk =
      ⟨OpResult.ok, 2, 1, false⟩
    ∧ firebaseDocumentIteratorWithRetry "2" (oneErrStub ClosingTransportError) =
      ⟨OpResult.ok, 2, 0, false⟩ := by
  have h := C4_transient_then_success "2" "users" "x" none
    (oneErrStub ClosingTransportError) refreshOk 2 (by omega) rfl rfl rfl
    (fun j hj => by
      have hj0 : j = 0 := by omega
      subst hj0
      rfl)
    rfl (fun j => rfl)
  exact ⟨h.1, h.2.2.2.2⟩

/--
C5_counterexample: with an empty entity identifier and a collection name
outside the allowlist, the read operation returns the empty-identifier
validation error, not an error stating that the collection does not
exist: the identifier guard runs before the allowlist guard in get, edit
and delete.  (Backend and refresh counts are still zero.)
-/
theorem C5_counterexample :
    getEntityFromFirestore "" "nope" "" backendOk refreshOk =
      ⟨OpResult.err (GoErr.msg "entity ID is required field for get"), 0, 0, true⟩ :=
  rfl

/--
C5: amended.  For every collection name outside the static allowlist,
each CRUD operation returns a validation error with zero backend
invocations and zero refreshes; the error states that the collection
does not exist provided the identifier-requiring operations (get, edit,
delete) are called with a non-empty identifier — with an empty
identifier the empty-identifier validation error is returned instead
(see the counterexample).  Delete's message omits the collection name.
-/
theorem C5_unknown_collection (env coll id : String) (entity : Option Unit)
    (backend refresh : Nat → Option GoErr)
    (hcoll : firestoreCollectionExists coll = false) (hid : (id == "") = false) :
    addEntityToFirestore env coll entity backend refresh =
      ⟨OpResult.err (GoErr.msg ("Collection name '" ++ coll ++ "' does not exist")), 0, 0,
        (goAtoi env).isNone⟩
    ∧ getEntityFromFirestore env coll id backend refresh =
      ⟨OpResult.err (GoErr.msg ("document name '" ++ coll ++ "' does not exist")), 0, 0,
        (goAtoi env).isNone⟩
    ∧ editEntityInFirestore env coll id entity backend refresh =
      ⟨OpResult.err (GoErr.msg ("Document name '" ++ coll ++ "' does not exist")), 0, 0,
        (goAtoi env).isNone⟩
    ∧ deleteEntityFromFirestore env coll id backend refresh =
      ⟨OpResult.err (GoErr.msg "Document name does not exist"), 0, 0,
        (goAtoi env).isNone⟩ := by
  refine ⟨?_, ?_, ?_, ?_⟩ <;>
    simp [addEntityToFirestore, getEntityFromFirestore, editEntityInFirestore,
      deleteEntityFromFirestore, hcoll, hid]

/-- C5_witness: the amended statement at the unknown collection "nope"
with the non-empty identifier "x". -/
theorem C5_witness :
    firestoreCollectionExists "nope" = false
    ∧ addEntityToFirestore "" "nope" none backendOk refreshOk =
      ⟨OpResult.err (GoErr.msg "Collection name 'nope' does not exist"), 0, 0, true⟩ :=
  ⟨rfl, (C5_unknown_collection "" "nope" "x" none backendOk refreshOk rfl rfl).1⟩

/--
C6: for every environment value, collection name, entity and backend,
calling get, edit or delete with the empty entity identifier returns the
operation's empty-identifier validation error immediately, with zero
backend invocations and zero refreshes.
-/
theorem C6_empty_identifier (env coll : String) (entity : Option Unit)
    (backend refresh : Nat → Option GoErr) :
    getEntityFromFirestore env coll "" backend refresh =
      ⟨OpResult.err (GoErr.msg "entity ID is required field for get"), 0, 0,
        (goAtoi env).isNone⟩
    ∧ editEntityInFirestore env coll "" entity backend refresh =
      ⟨OpResult.err (GoErr.msg "Entity ID is required field for edit"), 0, 0,
        (goAtoi env).isNone⟩
    ∧ deleteEntityFromFirestore env coll "" backend refresh =
      ⟨OpResult.err (GoErr.msg "Entity ID is required field for deletion"), 0, 0,
        (goAtoi env).isNone⟩ := by
  refine ⟨?_, ?_, ?_⟩ <;>
    simp [getEntityFromFirestore, editEntityInFirestore, deleteEntityFromFirestore]

/--
C7_counterexample: the create operation performs a backend invocation
even when the entity is nil (modelled as `none`): with an allowlisted
collection and a succeeding backend it returns success after one backend
call, not a validation error before any backend invocation.
-/
theorem C7_counterexample :
    addEntityToFirestore "" "users" none backendOk refreshOk = ⟨OpResult.ok, 1, 0, true⟩ :=
  rfl

/--
C7: amended.  The create operation does not validate the entity at all:
its behaviour is identical for every entity value, nil included — a nil
entity is simply forwarded to the backend, so no validation error is
produced and the backend is invoked whenever the collection passes the
allowlist guard.
-/
theorem C7_entity_never_validated (env coll : String) (e1 e2 : Option Unit)
    (backend refresh : Nat → Option GoErr) :
    addEntityToFirestore env coll e1 backend refresh =
      addEntityToFirestore env coll e2 backend refresh
    ∧ addEntityToFirestore "" "users" none backendOk refreshOk = ⟨OpResult.ok, 1, 0, true⟩ :=
  ⟨rfl, rfl⟩

/--
C8: whenever the effective retry budget admits a first attempt and the
first backend invocation fails with a message that is neither the
transport-closing string nor contains the unavailable-service substring
(so it is not transient under any operation's rule, and it is an
ordinary error rather than the end-of-sequence sentinel), each of the
five operations returns its wrapped fatal error after exactly one
backend invocation, with no retry and no refresh.  The four CRUD wraps
name the operation and the collection (edit and delete also the
identifier); the cursor-advance wrap names the operation only, as it
takes no collection argument.
-/
theorem C8_nontransient_immediately_fatal (env coll id m : String) (entity : Option Unit)
    (backend refresh : Nat → Option GoErr)
    (hn : 1 ≤ (goAtoi env).getD 1)
    (hcoll : firestoreCollectionExists coll = true) (hid : (id == "") = false)
    (hb : backend 0 = some (GoErr.msg m))
    (hm1 : (m == ClosingTransportError) = false)
    (hm2 : goStringsContains m "The service is temporarily unavailable" = false) :
    addEntityToFirestore env coll entity backend refresh =
      ⟨OpResult.err (GoErr.msg
        ("Unsuccessful adding data to the '" ++ coll ++ "' collection, Error: " ++ m)),
        1, 0, (goAtoi env).isNone⟩
    ∧ getEntityFromFirestore env coll id backend refresh =
      ⟨OpResult.err (GoErr.msg
        ("unsuccessful getting data from the '" ++ coll ++ "' collection, Error: " ++ m)),
        1, 0, (goAtoi env).isNone⟩
    ∧ editEntityInFirestore env coll id entity backend refresh =
      ⟨OpResult.err (GoErr.msg
        ("Unsuccessful updating '" ++ id ++ "' in the '" ++ coll ++ "' collection, Error: " ++ m)),
        1, 0, (goAtoi env).isNone⟩
    ∧ deleteEntityFromFirestore env coll id backend refresh =
      ⟨OpResult.err (GoErr.msg
        ("Unsuccessful deletion " ++ id ++ " from " ++ coll ++ " collection, Error: " ++ m)),
        1, 0, (goAtoi env).isNone⟩
    ∧ firebaseDocumentIteratorWithRetry env backend =
      ⟨OpResult.err (GoErr.msg ("Unsuccessful document iteration, Error: " ++ m)),
        1, 0, (goAtoi env).isNone⟩ := by
  have hm3 : goStringsContains m UnavailableServiceError = false := by
    cases h : goStringsContains m UnavailableServiceError with
    | false => rfl
    | true =>
      have hsub : goStringsContains UnavailableServiceError
          "The service is temporarily unavailable" = true := by decide
      have htr := goStringsContains_trans m UnavailableServiceError
        "The service is temporarily unavailable" hsub h
      rw [hm2] at htr
      exact absurd htr (by decide)
  obtain ⟨f, hf⟩ : ∃ f, ((goAtoi env).getD 1).toNat = f + 1 :=
    ⟨((goAtoi env).getD 1).toNat - 1, by omega⟩
  refine ⟨?_, ?_, ?_, ?_, ?_⟩
  · have h := crudLoop_fatal_first (addSpec coll) backend refresh ((goAtoi env).getD 1) f 0 0 0
      (initialErrVar env) (GoErr.msg m) hb (by simp [addSpec, GoErr.error, hm1])
    simp only [GoErr.error] at h
    rw [show (addSpec coll).fatalMsg m =
      "Unsuccessful adding data to the '" ++ coll ++ "' collection, Error: " ++ m from rfl] at h
    simp [addEntityToFirestore, hcoll, hf, h]
  · have h := crudLoop_fatal_first (getSpec coll) backend refresh ((goAtoi env).getD 1) f 0 0 0
      (initialErrVar env) (GoErr.msg m) hb (by simp [getSpec, GoErr.error, hm1, hm2])
    simp only [GoErr.error] at h
    rw [show (getSpec coll).fatalMsg m =
      "unsuccessful getting data from the '" ++ coll ++ "' collection, Error: " ++ m from rfl] at h
    simp [getEntityFromFirestore, hcoll, hid, hf, h]
  · have h := crudLoop_fatal_first (editSpec coll id) backend refresh ((goAtoi env).getD 1) f 0 0 0
      (initialErrVar env) (GoErr.msg m) hb (by simp [editSpec, GoErr.error, hm1, hm3])
    simp only [GoErr.error] at h
    rw [show (editSpec coll id).fatalMsg m =
      "Unsuccessful updating '" ++ id ++ "' in the '" ++ coll ++ "' collection, Error: " ++ m from rfl] at h
    simp [editEntityInFirestore, hcoll, hid, hf, h]
  · have h := crudLoop_fatal_first (deleteSpec coll id) backend refresh ((goAtoi env).getD 1) f 0 0 0
      (initialErrVar env) (GoErr.msg m) hb (by simp [deleteSpec, GoErr.error, hm1])
    simp only [GoErr.error] at h
    rw [show (deleteSpec coll id).fatalMsg m =
      "Unsuccessful deletion " ++ id ++ " from " ++ coll ++ " collection, Error: " ++ m from rfl] at h
    simp [deleteEntityFromFirestore, hcoll, hid, hf, h]
  · have h := iterLoop_fatal_first backend (initialErrVar env) f 0 m hb hm1
    simp [firebaseDocumentIteratorWithRetry, hf, h]

/-- C8_witness: the statement instantiated with an unset retry variable
(effective budget 1) and a backend failing once with "boom". -/
theorem C8_witness :
    1 ≤ (goAtoi "").getD 1
    ∧ addEntityToFirestore "" "users" none (oneErrStub "boom") refreshOk =
      ⟨OpResult.err (GoErr.msg
        ("Unsuccessful adding data to the '" ++ "users" ++ "' collection, Error: " ++ "boom")),
        1, 0, (goAtoi "").isNone⟩ :=
  ⟨by decide,
    (C8_nontransient_immediately_fatal "" "users" "x" "boom" none (oneErrStub "boom") refreshOk
      (by decide) rfl rfl rfl rfl (by decide)).1⟩

/--
C9: when the retry-count environment value does not parse (including the
empty string `os.Getenv` yields when the variable is unset), every
operation falls back to an effective budget of exactly 1, records the
informational log line, and still completes normally: with a succeeding
backend each operation returns success after exactly one backend
invocation.  The missing configuration itself never fails the call.
-/
theorem C9_missing_config_defaults_to_one (env coll id : String) (entity : Option Unit)
    (backend refresh : Nat → Option GoErr) (h : goAtoi env = none) :
    (goAtoi env).getD 1 = 1
    ∧ (addEntityToFirestore env coll entity backend refresh).configLogged = true
    ∧ (getEntityFromFirestore env coll id backend refresh).configLogged = true
    ∧ (editEntityInFirestore env coll id entity backend refresh).configLogged = true
    ∧ (deleteEntityFromFirestore env coll id backend refresh).configLogged = true
    ∧ (firebaseDocumentIteratorWithRetry env backend).configLogged = true
    ∧ addEntityToFirestore env "users" entity backendOk refresh = ⟨OpResult.ok, 1, 0, true⟩
    ∧ getEntityFromFirestore env "users" "x" backendOk refresh = ⟨OpResult.ok, 1, 0, true⟩
    ∧ editEntityInFirestore env "users" "x" entity backendOk refresh = ⟨OpResult.ok, 1, 0, true⟩
    ∧ deleteEntityFromFirestore env "users" "x" backendOk refresh = ⟨OpResult.ok, 1, 0, true⟩
    ∧ firebaseDocumentIteratorWithRetry env backendOk = ⟨OpResult.ok, 1, 0, true⟩ := by
  have hok1 : ∀ sp rf ev, crudLoop sp backendOk rf 1 1 0 0 0 ev = (OpResult.ok, 1, 0) :=
    fun sp rf ev => crudLoop_ok_first sp backendOk rf 1 0 0 0 0 ev rfl
  have hiter1 : ∀ ev, iterLoop backendOk ev 1 0 = (OpResult.ok, 1) :=
    fun ev => iterLoop_ok_first backendOk ev 0 0 rfl
  refine ⟨by simp [h], ?_, ?_, ?_, ?_, ?_, ?_, ?_, ?_, ?_, ?_⟩
  · by_cases hc : firestoreCollectionExists coll
    · simp [addEntityToFirestore, hc, h]
    · simp [addEntityToFirestore, hc, h]
  · by_cases hi : (id == "") = true
    · simp [getEntityFromFirestore, hi, h]
    · by_cases hc : firestoreCollectionExists coll
      · simp [getEntityFromFirestore, hi, hc, h]
      · simp [getEntityFromFirestore, hi, hc, h]
  · by_cases hi : (id == "") = true
    · simp [editEntityInFirestore, hi, h]
    · by_cases hc : firestoreCollectionExists coll
      · simp [editEntityInFirestore, hi, hc, h]
      · simp [editEntityInFirestore, hi, hc, h]
  · by_cases hi : (id == "") = true
    · simp [deleteEntityFromFirestore, hi, h]
    · by_cases hc : firestoreCollectionExists coll
      · simp [deleteEntityFromFirestore, hi, hc, h]
      · simp [deleteEntityFromFirestore, hi, hc, h]
  · simp [firebaseDocumentIteratorWithRetry, h]
  · simp [addEntityToFirestore, h, hok1, show firestoreCollectionExists "users" = true from rfl]
  · simp [getEntityFromFirestore, h, hok1,
      show (("x" : String) == "") = false from rfl,
      show firestoreCollectionExists "users" = true from rfl]
  · simp [editEntityInFirestore, h, hok1,
      show (("x" : String) == "") = false from rfl,
      show firestoreCollectionExists "users" = true from rfl]
  · simp [deleteEntityFromFirestore, h, hok1,
      show (("x" : String) == "") = false from rfl,
      show firestoreCollectionExists "users" = true from rfl]
  · simp [firebaseDocumentIteratorWithRetry, h, hiter1]

/-- C9_witness: the statement instantiated at the non-numeric value
"abc". -/
theorem C9_witness :
    (goAtoi "abc").getD 1 = 1
    ∧ addEntityToFirestore "abc" "users" none backendOk refreshOk = ⟨OpResult.ok, 1, 0, true⟩ :=
  ⟨(C9_missing_config_defaults_to_one "abc" "users" "x" none backendOk refreshOk (by decide)).1,
    (C9_missing_config_defaults_to_one "abc" "users" "x" none backendOk refreshOk
      (by decide)).2.2.2.2.2.2.1⟩

/--
C10: when the retry-count environment value parses to an integer k <= 0
and the arguments pass validation (allowlisted collection, non-empty
identifier where required), each CRUD operation skips the retry loop
entirely — zero backend invocations, zero refreshes — and then
dereferences the nil `err` while building the exceed-retries message, so
the call panics instead of returning an error.
-/
theorem C10_nonpositive_budget_panics (env coll id : String) (entity : Option Unit)
    (backend refresh : Nat → Option GoErr) (k : Int)
    (henv : goAtoi env = some k) (hk : k ≤ 0)
    (hcoll : firestoreCollectionExists coll = true) (hid : (id == "") = false) :
    addEntityToFirestore env coll entity backend refresh = ⟨OpResult.panicked, 0, 0, false⟩
    ∧ getEntityFromFirestore env coll id backend refresh = ⟨OpResult.panicked, 0, 0, false⟩
    ∧ editEntityInFirestore env coll id entity backend refresh = ⟨OpResult.panicked, 0, 0, false⟩
    ∧ deleteEntityFromFirestore env coll id backend refresh =
        ⟨OpResult.panicked, 0, 0, false⟩ := by
  have hev : initialErrVar env = none := by simp [initialErrVar, henv]
  have htn : Int.toNat k = 0 := Int.toNat_eq_zero.mpr hk
  refine ⟨?_, ?_, ?_, ?_⟩ <;>
    simp [addEntityToFirestore, getEntityFromFirestore, editEntityInFirestore,
      deleteEntityFromFirestore, hcoll, hid, henv, hev, htn, crudLoop]

/-- C10_witness: the statement instantiated at the environment value "0"
(which parses to 0) and valid arguments. -/
theorem C10_witness :
    goAtoi "0" = some 0
    ∧ addEntityToFirestore "0" "users" none backendOk refreshOk =
        ⟨OpResult.panicked, 0, 0, false⟩ :=
  ⟨rfl, (C10_nonpositive_budget_panics "0" "users" "x" none backendOk refreshOk 0
    rfl (by decide) rfl rfl).1⟩
